import Mathlib

/-!
Verification of the vmp-import-resolver pipeline driver (main.cpp) and of the
pipeline components it drives.  The driver `main` and the header
`vmp_image.hpp` are the repository sources; the bodies of the pipeline
components (`vmp::construct_context`, `vmp::utilities::scan_import_calls`,
`vmp::process_import_calls`, `vmp_image_t`, `vmp::iat_t::add_import`) are not
part of the repository snapshot, so those are modelled from the specification
and marked as such in their doc comments.  Machine addresses are 64-bit
unsigned values, embedded as `Nat` with wraparound made explicit (`sub64`).
-/

/-- Wrapping 64-bit subtraction, as performed on `std::uintptr_t` values in
`main.cpp` (`import.import_address - remote_image_base`, main.cpp:200). -/
def sub64 (a b : Nat) : Nat :=
  (a + (2 ^ 64 - b % 2 ^ 64)) % 2 ^ 64

/-- One entry of `vmp::context->imports` (main.cpp:194).  The spec's
`ImportRecord`: `call_site_va` is the virtual address of the rewritten call,
`import_address` the recovered absolute target address (the spec's
`target_va`). -/
structure ImportT where
  call_site_va : Nat
  import_address : Nat
deriving DecidableEq, Repr

/-- One export of a mapped module, as destructured in main.cpp:203
(`[export_name, export_va, _]`): `export_va` is the export's address relative
to its module's base. -/
structure ExportEntry where
  export_name : String
  export_va : Nat
deriving DecidableEq, Repr

/-- One element of `win_process.modules_local_mapped()` as destructured in
main.cpp:198 (`[pe, remote_image_base, module_name]`); the parsed image is
represented by its export list. -/
structure MappedModule where
  exports : List ExportEntry
  remote_image_base : Nat
  module_name : String
deriving DecidableEq, Repr

/-- The inner export loop of the IAT rebuild (main.cpp:202-216): walk the
exports in enumeration order; on the first export whose `export_va` equals
`possible_import_va` the loop sets `found` and breaks, which is returning that
export's name. -/
def scanExports (possible_import_va : Nat) : List ExportEntry → Option String
  | [] => none
  | ex :: rest =>
    if possible_import_va = ex.export_va then some ex.export_name
    else scanExports possible_import_va rest

/-- The middle module loop of the IAT rebuild (main.cpp:198-222): for each
mapped module in enumeration order compute
`possible_import_va = import_address - remote_image_base` (wrapping, 64-bit)
and scan its exports; the first module with a matching export wins (`if
(found) break`). -/
def scanModules (import_address : Nat) : List MappedModule → Option (String × String)
  | [] => none
  | m :: rest =>
    match scanExports (sub64 import_address m.remote_image_base) m.exports with
    | some name => some (m.module_name, name)
    | none => scanModules import_address rest

/-- The outer import loop of the IAT rebuild (main.cpp:194-223) with the iat
modelled as the sequence of `iat.add_import(module_name, export_name)` calls
(main.cpp:207): a matching import appends its resolved pair, an import with no
match across all modules appends nothing and raises no error. -/
def iatRebuildGo (mods : List MappedModule) : List ImportT → List (String × String) → List (String × String)
  | [], iat => iat
  | imp :: rest, iat =>
    match scanModules imp.import_address mods with
    | some entry => iatRebuildGo mods rest (iat ++ [entry])
    | none => iatRebuildGo mods rest iat

/-- The whole IAT rebuild loop of main.cpp:192-223, starting from the freshly
constructed empty `vmp::iat_t iat`. -/
def iatRebuildLoop (imports : List ImportT) (mods : List MappedModule) : List (String × String) :=
  iatRebuildGo mods imports []

/-- The claim's resolution rule, written from the spec's words: the resolved
pair is given by the first module in enumeration order, and the first export
within that module in enumeration order, whose export address equals the
record's target address compared as `target_va - base` against the export's
relative address. -/
def specFirstResolve (target_va : Nat) (mods : List MappedModule) : Option (String × String) :=
  mods.findSome? fun m =>
    (m.exports.find? fun ex => ex.export_va = sub64 target_va m.remote_image_base).map
      fun ex => (m.module_name, ex.export_name)

/-! ### The VM tracer (Import Resolver) -/

/-- Modelled from the spec: the body of `vmp::process_import_calls`
(main.cpp:172) is not under the repository snapshot.  The mapped protected
sections (spec's `MappedSection` set, one `(base_va, bytes)` pair per section)
are the resolver's only memory; a read outside every mapped section yields the
byte `0xFF`, which no handler models. -/
def readByte (sections : List (Nat × List Nat)) (va : Nat) : Nat :=
  match sections with
  | [] => 0xFF
  | (b, bytes) :: rest =>
    if b ≤ va ∧ va < b + bytes.length then bytes.getD (va - b) 0xFF
    else readByte rest va

/-- A little-endian 32-bit read from the mapped sections. -/
def readDword (sections : List (Nat × List Nat)) (va : Nat) : Nat :=
  readByte sections va + 2 ^ 8 * readByte sections (va + 1) +
    2 ^ 16 * readByte sections (va + 2) + 2 ^ 24 * readByte sections (va + 3)

/-- A little-endian 64-bit read from the mapped sections. -/
def readQword (sections : List (Nat × List Nat)) (va : Nat) : Nat :=
  readDword sections va + 2 ^ 32 * readDword sections (va + 4)

/-- The errors the spec's Import Resolver can raise (§4.3, §7): exceeding the
fixed step budget, or an opcode the tracer does not model (named). -/
inductive TraceError where
  | traceOverflow : TraceError
  | unsupportedOpcode : Nat → TraceError
deriving DecidableEq, Repr

/-- The fixed step budget of the bounded symbolic trace (spec §4.3). -/
def STEP_BUDGET : Nat := 64

/-- Modelled from the spec: the bounded symbolic trace of
`vmp::process_import_calls` (main.cpp:172, spec §4.3) — not under the
repository snapshot.  The minimal VM subset: opcode `0x01` pushes a 64-bit
immediate, `0x03` is an intra-VM jump to a 64-bit immediate, and `0x02` is the
terminal unconditional transfer out of the VM, whose target is the value on
top of the VM stack.  Any other opcode is unmodelled.  Fuel counts the
remaining steps of the budget; exhausting it is a trace overflow. -/
def traceRun (sections : List (Nat × List Nat)) : Nat → Nat → List Nat → Except TraceError Nat
  | 0, _, _ => .error .traceOverflow
  | fuel + 1, ip, stack =>
    let op := readByte sections ip
    if op = 0x01 then traceRun sections fuel (ip + 9) (readQword sections (ip + 1) :: stack)
    else if op = 0x02 then .ok (stack.headD 0)
    else if op = 0x03 then traceRun sections fuel (readQword sections (ip + 1)) stack
    else .error (.unsupportedOpcode op)

/-- Modelled from the spec: the dispatch target of a call site — the raw
`call rel32` target decoded from the mapped bytes at the call site, with the
32-bit displacement sign-extended and the sum wrapped to 64 bits. -/
def callTarget (sections : List (Nat × List Nat)) (call_site : Nat) : Nat :=
  let rel := readDword sections (call_site + 1)
  if rel < 2 ^ 31 then (call_site + 5 + rel) % 2 ^ 64
  else sub64 (call_site + 5) (2 ^ 32 - rel)

/-- Modelled from the spec: one call site's resolution — trace the VM from the
call's dispatch target with the fixed step budget and an empty VM stack. -/
def resolveCallSite (sections : List (Nat × List Nat)) (call_site : Nat) : Except TraceError Nat :=
  traceRun sections STEP_BUDGET (callTarget sections call_site) []

/-- Modelled from the spec: `vmp::process_import_calls(call_sites,
module_base)` (main.cpp:172, spec §4.3) — not under the repository snapshot.
Each call site is traced in order; on success the record
`{call_site_va, target_va}` is appended to the accumulating import list, and
the first failing trace aborts the whole call.  `module_base` is kept from the
interface; the spec assigns it no observable role in the trace. -/
def process_import_calls (sections : List (Nat × List Nat)) (call_sites : List Nat)
    (module_base : Nat) : Except TraceError (List ImportT) :=
  match call_sites with
  | [] => .ok []
  | cs :: rest => do
    let t ← resolveCallSite sections cs
    let others ← process_import_calls sections rest module_base
    pure ({ call_site_va := cs, import_address := t } :: others)

/-! ### The Import Call Scanner -/

/-- A section address range `(base_va, size)` the scanner checks call targets
against. -/
def inRanges (va : Nat) (ranges : List (Nat × Nat)) : Bool :=
  ranges.any fun r => r.1 ≤ va && va < r.1 + r.2

/-- Modelled from the spec: the raw target of a `call rel32` whose opcode byte
sits at offset `off` of the scanned buffer based at `base` (spec §4.2: decoded
from the instruction bytes at scan time, no emulation). -/
def callTargetAt (base : Nat) (buf : List Nat) (off : Nat) : Nat :=
  let rel := buf.getD (off + 1) 0 + 2 ^ 8 * buf.getD (off + 2) 0 +
    2 ^ 16 * buf.getD (off + 3) 0 + 2 ^ 24 * buf.getD (off + 4) 0
  if rel < 2 ^ 31 then (base + off + 5 + rel) % 2 ^ 64
  else sub64 (base + off + 5) (2 ^ 32 - rel)

/-- Modelled from the spec: does offset `off` hold a complete call-type
instruction whose raw target lands inside one of the mapped protected
sections (spec §4.2)?  A call opcode truncated by the end of the buffer is not
a complete instruction. -/
def isResolvedCall (base : Nat) (buf : List Nat) (ranges : List (Nat × Nat)) (off : Nat) : Bool :=
  buf.getD off 0 == 0xE8 && off + 5 ≤ buf.length && inRanges (callTargetAt base buf off) ranges

/-- Modelled from the spec: the instruction-length decoder of the linear scan
(spec §4.2).  A complete `call rel32` is five bytes; every other byte —
including an undecodable one — advances the scan by one byte (undecodable
bytes are skipped conservatively, never fatal). -/
def instrLen (buf : List Nat) (off : Nat) : Nat :=
  if buf.getD off 0 == 0xE8 && off + 5 ≤ buf.length then 5 else 1

/-- Modelled from the spec: the linear scan underneath
`vmp::utilities::scan_import_calls` (main.cpp:139, spec §4.2) — not under the
repository snapshot.  `fuel` only bounds the recursion; each step advances
`off` by at least one byte, so `buf.length` steps always suffice. -/
def scanAux (base : Nat) (buf : List Nat) (ranges : List (Nat × Nat)) : Nat → Nat → List Nat
  | 0, _ => []
  | fuel + 1, off =>
    if off < buf.length then
      let rest := scanAux base buf ranges fuel (off + instrLen buf off)
      if isResolvedCall base buf ranges off then (base + off) :: rest else rest
    else []

/-- Modelled from the spec: `vmp::utilities::scan_import_calls(address,
buffer)` (main.cpp:139) — not under the repository snapshot.  `ranges` is the
set of protected-section address ranges recorded by `vmp::compute_sections`
(main.cpp:105), against which the raw call targets are checked. -/
def scan_import_calls (base : Nat) (buf : List Nat) (ranges : List (Nat × Nat)) : List Nat :=
  scanAux base buf ranges buf.length 0

/-! ### The Output Image Builder -/

/-- The errors of the Output Image Builder (spec §4.5, §7). -/
inductive BuilderError where
  | snapshotError : BuilderError
  | duplicateSectionError : BuilderError
  | sectionLimitError : BuilderError
deriving DecidableEq, Repr

/-- A section descriptor appended by `add_section` (vmp_image.hpp:27). -/
structure SectionAdd where
  name : String
  size : Nat
  characteristics : Nat
deriving DecidableEq, Repr

/-- The state of `vmp_image_t` (vmp_image.hpp:14-30): the load base and the
byte buffer, plus the descriptors of the sections appended after the
snapshot.  The member implementations are not under the repository snapshot;
the state and the operations below are modelled from the spec (§4.5). -/
structure VmpImage where
  m_image_base : Nat
  m_buffer : List Nat
  added : List SectionAdd
deriving DecidableEq, Repr

/-- A byte-for-byte read of `size` bytes of remote memory starting at `base`;
`none` as soon as any byte in range cannot be read. -/
def readRange (mem : Nat → Option Nat) (base size : Nat) : Option (List Nat) :=
  (List.range size).mapM fun i => mem (base + i)

/-- Modelled from the spec: `vmp_image_t::initialize_memory_pe(image_size,
win_process)` (vmp_image.hpp:25, spec §4.5) — body not under the repository
snapshot.  Captures a byte-for-byte snapshot of the module's memory region
into the internal buffer and records the load base; fails with a
`SnapshotError` if any byte in range cannot be read.  No section has been
added yet. -/
def initialize_memory_pe (image_base image_size : Nat) (mem : Nat → Option Nat) :
    Except BuilderError VmpImage :=
  match readRange mem image_base image_size with
  | some bytes => .ok { m_image_base := image_base, m_buffer := bytes, added := [] }
  | none => .error .snapshotError

/-- The format's section-table capacity (spec §4.5 `SectionLimitError`); the
PE file header's section count is 16 bits. -/
def SECTION_LIMIT : Nat := 2 ^ 16 - 1

/-- Modelled from the spec: `vmp_image_t::add_section(name, size,
characteristics)` (vmp_image.hpp:27, spec §4.5) — body not under the
repository snapshot.  Appends a new descriptor and reserves `size` zero-filled
payload bytes; fails on a duplicate name or an exhausted section table. -/
def add_section (img : VmpImage) (name : String) (size : Nat) (characteristics : Nat) :
    Except BuilderError VmpImage :=
  if img.added.any fun s => s.name == name then .error .duplicateSectionError
  else if SECTION_LIMIT ≤ img.added.length then .error .sectionLimitError
  else .ok { img with added := img.added ++ [{ name := name, size := size, characteristics := characteristics }] }

/-- Modelled from the spec: the header patch `serialize` applies when extra
sections were added — the section-table/header fields describing them,
followed by the reserved payloads (spec §4.5, §3 `OutputImage`). -/
def patchedImageBytes (img : VmpImage) : List Nat :=
  let headerPatch := img.added.foldl (fun acc s => acc ++ [s.size % 2 ^ 8, s.characteristics % 2 ^ 8]) []
  headerPatch ++ img.m_buffer ++ (img.added.map fun s => List.replicate s.size 0).flatten

/-- Modelled from the spec: the bytes `vmp_image_t::dump_to_fs`
(vmp_image.hpp:29, spec §4.5 `serialize`) writes to the file — body not under
the repository snapshot.  With no section added the snapshot needs no
section-table/header change and is written as captured; with added sections
the headers are patched and the reserved payloads appended. -/
def dump_to_fs (img : VmpImage) : List Nat :=
  if img.added.isEmpty then img.m_buffer else patchedImageBytes img

/-! ### VM Context construction -/

/-- The spec's §4.1 ConfigurationError. -/
inductive VmpError where
  | configurationError : VmpError
deriving DecidableEq, Repr

/-- The spec's `VMContext` (§3): architecture flag plus the accumulating
table of import records. -/
structure VmpContext where
  is_x64 : Bool
  imports : List ImportT
deriving DecidableEq, Repr

/-- Modelled from the spec: `vmp::construct_context(is_x64)` (main.cpp:103,
spec §4.1) — body not under the repository snapshot.  The singleton-like
global `vmp::context` is made explicit as the `existing` argument: a second
construction in the same run finds the context already present and fails with
a `ConfigurationError`; the first construction creates the context with an
empty import table. -/
def construct_context (existing : Option VmpContext) (is_x64 : Bool) :
    Except VmpError VmpContext :=
  match existing with
  | some _ => .error .configurationError
  | none => .ok { is_x64 := is_x64, imports := [] }

/-! ### The driver (`main`, main.cpp:22-243)

The driver is embedded as a function of an environment that records the
outcome of every external or exception-throwing call `main` makes (remote
reads, file loads, pipeline-stage exceptions), together with the data the
pipeline stages hand forward.  The run's observable behaviour is a trace of
the operations `main` performed, in program order, the process exit status,
and the iat entry list the rebuild loop produced (when reached). -/

/-- `portable_executable::machine_id_t::amd64` (IMAGE_FILE_MACHINE_AMD64). -/
def machine_amd64 : Nat := 0x8664

/-- `portable_executable::machine_id_t::i386` (IMAGE_FILE_MACHINE_I386). -/
def machine_i386 : Nat := 0x14c

/-- The operations of `main` the embedding records, in the order the source
performs them.  `readSection` carries the section's name; `constructContext`
carries the `is_x64` flag chosen by the machine-id switch (main.cpp:84-103). -/
inductive Event where
  | attach : Event
  | fileLoad : Event
  | constructContext : Bool → Event
  | computeSections : Event
  | readSection : String → Event
  | scanImportCalls : Event
  | mapSections : Event
  | processImportCalls : Event
  | enumModules : Event
  | iatRebuild : Event
  | initializeMemoryPe : Event
  | iatReconstruct : Event
  | dumpToFs : Event
deriving DecidableEq, Repr

/-- One entry of `config_ctx.vmp_sections` (main.cpp:144-167) with the outcome
of its `find_section` lookup and its remote read. -/
structure SecEnv where
  name : String
  found : Bool
  readOk : Bool
deriving DecidableEq, Repr

/-- The environment of one run of `main`: the outcome of every fallible call,
in source order, and the data handed between stages.  `fileMachine` is the
`file_header.machine` field of the on-disk file loaded from `module->path`
(main.cpp:73-86); the live process image's headers are never consulted by the
switch, which the unused `processMachine` field witnesses.  `contextImports`
is `vmp::context->imports` as populated by the resolver (main.cpp:194);
`mappedModules` is `win_process.modules_local_mapped()` (main.cpp:181). -/
structure Env where
  argParseOk : Bool
  tomlOk : Bool
  processIdOk : Bool
  attachOk : Bool
  findModuleOk : Bool
  fileLoadOk : Bool
  fileMachine : Nat
  processMachine : Nat
  constructOk : Bool
  computeSectionsOk : Bool
  textSectionFound : Bool
  textReadOk : Bool
  vmpSections : List SecEnv
  mapSectionsOk : Bool
  processOk : Bool
  enumModulesOk : Bool
  contextImports : List ImportT
  mappedModules : List MappedModule
  initializeOk : Bool
  reconstructOk : Bool
  dumpOk : Bool
deriving DecidableEq, Repr

/-- What a run of `main` leaves observable: the operation trace, the exit
status, and the iat entries of the rebuild loop when the run reached it. -/
structure RunResult where
  trace : List Event
  exit : Nat
  iat : Option (List (String × String))
deriving DecidableEq, Repr

def EXIT_SUCCESS : Nat := 0

def EXIT_FAILURE : Nat := 1

/-- The per-section loop of main.cpp:144-167: each requested vmp section is
looked up (no event; a miss exits before any read) and then read from the
remote process (a `readSection` event; a failed read exits).  Returns the
events performed and whether the loop completed. -/
def vmpReads : List SecEnv → List Event × Bool
  | [] => ([], true)
  | s :: rest =>
    if s.found = false then ([], false)
    else if s.readOk = false then ([Event.readSection s.name], false)
    else
      let r := vmpReads rest
      (Event.readSection s.name :: r.1, r.2)

/-- main.cpp:101-242, from the `vmp::construct_context(is_x64)` call on, with
`b` the `is_x64` flag the machine-id switch chose.  Every `if` mirrors one
early `return EXIT_FAILURE` of the source, in source order; the iat rebuild
loop (main.cpp:194-223) is run via `iatRebuildLoop` on the context's imports
and the mapped modules. -/
def mainAfterArch (e : Env) (b : Bool) : RunResult :=
  let t0 := [Event.attach, Event.fileLoad, Event.constructContext b]
  if e.constructOk = false then ⟨t0, EXIT_FAILURE, none⟩ else
  let t1 := t0 ++ [Event.computeSections]
  if e.computeSectionsOk = false then ⟨t1, EXIT_FAILURE, none⟩ else
  if e.textSectionFound = false then ⟨t1, EXIT_FAILURE, none⟩ else
  let t2 := t1 ++ [Event.readSection ".text"]
  if e.textReadOk = false then ⟨t2, EXIT_FAILURE, none⟩ else
  let t3 := t2 ++ [Event.scanImportCalls]
  let vr := vmpReads e.vmpSections
  let t4 := t3 ++ vr.1
  if vr.2 = false then ⟨t4, EXIT_FAILURE, none⟩ else
  let t5 := t4 ++ [Event.mapSections]
  if e.mapSectionsOk = false then ⟨t5, EXIT_FAILURE, none⟩ else
  let t6 := t5 ++ [Event.processImportCalls]
  if e.processOk = false then ⟨t6, EXIT_FAILURE, none⟩ else
  let t7 := t6 ++ [Event.enumModules]
  if e.enumModulesOk = false then ⟨t7, EXIT_FAILURE, none⟩ else
  let iat := iatRebuildLoop e.contextImports e.mappedModules
  let t8 := t7 ++ [Event.iatRebuild, Event.initializeMemoryPe]
  if e.initializeOk = false then ⟨t8, EXIT_FAILURE, some iat⟩ else
  let t9 := t8 ++ [Event.iatReconstruct]
  if e.reconstructOk = false then ⟨t9, EXIT_FAILURE, some iat⟩ else
  let t10 := t9 ++ [Event.dumpToFs]
  if e.dumpOk = false then ⟨t10, EXIT_FAILURE, some iat⟩ else
  ⟨t10, EXIT_SUCCESS, some iat⟩

/-- `main` (main.cpp:22-243): argument parsing, toml parsing, process lookup,
attach, module lookup, on-disk file load, then the machine-id switch
(main.cpp:86-99) — `amd64` selects 64-bit, `i386` selects 32-bit, anything
else exits with `EXIT_FAILURE` before any pipeline call — and the pipeline. -/
def mainRun (e : Env) : RunResult :=
  if e.argParseOk = false then ⟨[], EXIT_FAILURE, none⟩ else
  if e.tomlOk = false then ⟨[], EXIT_FAILURE, none⟩ else
  if e.processIdOk = false then ⟨[], EXIT_FAILURE, none⟩ else
  if e.attachOk = false then ⟨[Event.attach], EXIT_FAILURE, none⟩ else
  if e.findModuleOk = false then ⟨[Event.attach], EXIT_FAILURE, none⟩ else
  if e.fileLoadOk = false then ⟨[Event.attach, Event.fileLoad], EXIT_FAILURE, none⟩ else
  if e.fileMachine = machine_amd64 then mainAfterArch e true else
  if e.fileMachine = machine_i386 then mainAfterArch e false else
  ⟨[Event.attach, Event.fileLoad], EXIT_FAILURE, none⟩

/-- Is this event one of the pipeline-stage operations whose order claim C2
ranges over?  The attach, file-load, per-section reads and module enumeration
are external collaborator calls, not pipeline stages. -/
def isStageEvent : Event → Bool
  | .constructContext _ => false
  | .computeSections => true
  | .scanImportCalls => true
  | .mapSections => true
  | .processImportCalls => true
  | .iatRebuild => true
  | .initializeMemoryPe => true
  | .iatReconstruct => true
  | .dumpToFs => true
  | _ => false

/-- The order in which `main` performs the pipeline-stage operations. -/
def stageOrder : List Event :=
  [Event.computeSections, Event.scanImportCalls, Event.mapSections,
   Event.processImportCalls, Event.iatRebuild, Event.initializeMemoryPe,
   Event.iatReconstruct, Event.dumpToFs]

/-- Did every requested vmp section get found and read? -/
def vmpAllOk : List SecEnv → Bool
  | [] => true
  | s :: rest => s.found && s.readOk && vmpAllOk rest

/-- Every operation of `main` after the machine-id switch and before the
final `dump_to_fs` succeeded: context and section setup, the reads, the
resolver, module enumeration, the builder snapshot and the reconstruction. -/
def afterArchOk (e : Env) : Bool :=
  e.constructOk && e.computeSectionsOk && e.textSectionFound && e.textReadOk &&
  vmpAllOk e.vmpSections && e.mapSectionsOk && e.processOk && e.enumModulesOk &&
  e.initializeOk && e.reconstructOk

/-- Every operation of `main` before the final `dump_to_fs` succeeded:
argument parsing through the IAT reconstruction, machine id valid. -/
def priorOk (e : Env) : Bool :=
  e.argParseOk && e.tomlOk && e.processIdOk && e.attachOk && e.findModuleOk &&
  e.fileLoadOk && (e.fileMachine == machine_amd64 || e.fileMachine == machine_i386) &&
  afterArchOk e

/-- An environment in which every operation succeeds, one protected section is
requested, the resolver produced one import record whose target no mapped
module exports (`0x5000 - 0x4000 = 0x1000`, but the only export's relative
address is `0x999`), and one mapped module is enumerated. -/
def envUnresolved : Env where
  argParseOk := true
  tomlOk := true
  processIdOk := true
  attachOk := true
  findModuleOk := true
  fileLoadOk := true
  fileMachine := machine_amd64
  processMachine := machine_amd64
  constructOk := true
  computeSectionsOk := true
  textSectionFound := true
  textReadOk := true
  vmpSections := [{ name := ".vmp0", found := true, readOk := true }]
  mapSectionsOk := true
  processOk := true
  enumModulesOk := true
  contextImports := [{ call_site_va := 0x1000, import_address := 0x5000 }]
  mappedModules := [{ exports := [{ export_name := "Foo", export_va := 0x999 }],
                      remote_image_base := 0x4000, module_name := "m.dll" }]
  initializeOk := true
  reconstructOk := true
  dumpOk := true

/-- An environment identical to `envUnresolved` except that the import record
resolves (`0x5000 - 0x4000 = 0x1000` is exported as `Foo`). -/
def envResolved : Env :=
  { envUnresolved with
    mappedModules := [{ exports := [{ export_name := "Foo", export_va := 0x1000 }],
                        remote_image_base := 0x4000, module_name := "m.dll" }] }

/-- An environment identical to `envUnresolved` except that the on-disk file's
machine id is `0x1c0` (ARM), neither `amd64` nor `i386`. -/
def envBadMachine : Env :=
  { envUnresolved with fileMachine := 0x1c0 }

example : (mainRun envUnresolved).exit = EXIT_SUCCESS := by decide
example : (mainRun envUnresolved).iat = some [] := by decide
example : (mainRun envResolved).iat = some [("m.dll", "Foo")] := by decide
example : (mainRun envUnresolved).trace =
    [Event.attach, Event.fileLoad, Event.constructContext true, Event.computeSections,
     Event.readSection ".text", Event.scanImportCalls, Event.readSection ".vmp0",
     Event.mapSections, Event.processImportCalls, Event.enumModules, Event.iatRebuild,
     Event.initializeMemoryPe, Event.iatReconstruct, Event.dumpToFs] := by decide
example : (mainRun envBadMachine).trace = [Event.attach, Event.fileLoad] := by decide

/-- Decidable equality for `Except`, so concrete resolver runs can be checked
by `decide`. -/
instance {e a : Type} [DecidableEq e] [DecidableEq a] : DecidableEq (Except e a) := fun x y =>
  match x, y with
  | .ok u, .ok v =>
    if h : u = v then .isTrue (by rw [h]) else .isFalse fun hc => h (Except.ok.inj hc)
  | .ok _, .error _ => .isFalse fun hc => Except.noConfusion hc
  | .error _, .ok _ => .isFalse fun hc => Except.noConfusion hc
  | .error u, .error v =>
    if h : u = v then .isTrue (by rw [h]) else .isFalse fun hc => h (Except.error.inj hc)

/-! ### Theorems: IAT rebuild (C3, C1) -/

theorem scanExports_eq_find (p : Nat) (exs : List ExportEntry) :
    scanExports p exs = (exs.find? fun ex => ex.export_va = p).map fun ex => ex.export_name := by
  induction exs with
  | nil => rfl
  | cons ex rest ih =>
    by_cases h : p = ex.export_va
    · simp [scanExports, List.find?_cons, h]
    · simp only [scanExports, List.find?_cons]
      rw [if_neg h]
      have h' : ¬ ex.export_va = p := fun hc => h hc.symm
      simp [h', ih]

/-- Claim C3: the pair the rebuild loop resolves an import record to is the
one given by the first module in enumeration order, and the first export
within that module in enumeration order, whose relative export address equals
`target_va - base` (64-bit wrapping); in particular, when two modules both
export the matching address the first one in the input sequence wins. -/
theorem resolve_first_match (target_va : Nat) (mods : List MappedModule) :
    scanModules target_va mods = specFirstResolve target_va mods := by
  induction mods with
  | nil => rfl
  | cons m rest ih =>
    simp only [scanModules, specFirstResolve, List.findSome?_cons, scanExports_eq_find]
    cases h : m.exports.find? fun ex => ex.export_va = sub64 target_va m.remote_image_base with
    | none => simpa [h] using ih
    | some ex => simp [h]

theorem iatRebuildGo_eq (mods : List MappedModule) (imports : List ImportT)
    (acc : List (String × String)) :
    iatRebuildGo mods imports acc =
      acc ++ imports.filterMap fun imp => scanModules imp.import_address mods := by
  induction imports generalizing acc with
  | nil => simp [iatRebuildGo]
  | cons imp rest ih =>
    simp only [iatRebuildGo, List.filterMap_cons]
    cases h : scanModules imp.import_address mods with
    | none => simp [h, ih]
    | some entry => simp [h, ih]

/-- Claim C1, corrected: an import record whose `target_va` matches no export
of any mapped module is silently dropped by the IAT rebuild loop — the loop
emits exactly the resolvable records' entries, in record order, raises no
error, and the driver proceeds to reconstruction and serialization
(`envUnresolved` carries exactly one such record, yet the run exits with
`EXIT_SUCCESS` and an empty rebuilt table). -/
theorem iat_rebuild_drops_unresolved :
    (∀ (imports : List ImportT) (mods : List MappedModule),
      iatRebuildLoop imports mods =
        imports.filterMap fun imp => scanModules imp.import_address mods) ∧
    (mainRun envUnresolved).exit = EXIT_SUCCESS ∧
    (mainRun envUnresolved).iat = some [] := by
  refine ⟨fun imports mods => ?_, by decide, by decide⟩
  simpa using iatRebuildGo_eq mods imports []

/-- Claim C1, counterexample: in `envUnresolved` the single import record's
`target_va` (`0x5000`) matches no export of the only mapped module, yet the
run does not fail — it exits with `EXIT_SUCCESS`, the record is absent from
the rebuilt table (which is empty), and the output is still dumped. -/
theorem iat_unresolved_counterexample :
    envUnresolved.contextImports = [{ call_site_va := 0x1000, import_address := 0x5000 }] ∧
    scanModules 0x5000 envUnresolved.mappedModules = none ∧
    (mainRun envUnresolved).exit ≠ EXIT_FAILURE ∧
    (mainRun envUnresolved).iat = some [] ∧
    Event.dumpToFs ∈ (mainRun envUnresolved).trace := by
  refine ⟨by decide, by decide, by decide, by decide, by decide⟩

/-! ### Theorems: VM context construction (C8) -/

/-- Claim C8: for every architecture value, constructing the VM context when
none exists succeeds (with an empty import table); constructing it a second
time in the same run — the context now existing — fails with a
`ConfigurationError`, whatever architecture is requested. -/
theorem construct_context_once (b b' : Bool) (c : VmpContext) :
    construct_context none b = .ok { is_x64 := b, imports := [] } ∧
    construct_context (some c) b' = .error .configurationError :=
  ⟨rfl, rfl⟩

/-! ### Theorems: Import Resolver (C4, C5) -/

/-- Claim C4: the resolver is deterministic — its result is a pure function
of the mapped section bytes, the call-site list and the module base; equal
inputs give equal `ImportRecord` sequences, with no other dependence. -/
theorem process_import_calls_deterministic
    (s₁ s₂ : List (Nat × List Nat)) (cs₁ cs₂ : List Nat) (b₁ b₂ : Nat)
    (hs : s₁ = s₂) (hc : cs₁ = cs₂) (hb : b₁ = b₂) :
    process_import_calls s₁ cs₁ b₁ = process_import_calls s₂ cs₂ b₂ := by
  subst hs; subst hc; subst hb; rfl

/-- A mapped section whose trace reaches the terminal transfer: the dispatch
stub pushes `0x42` and transfers out. -/
def secTerminal : List (Nat × List Nat) :=
  [(0, [0xE8, 0, 0, 0, 0, 0x01, 0x42, 0, 0, 0, 0, 0, 0, 0, 0x02])]

/-- A mapped section whose trace loops: the dispatch stub jumps to itself. -/
def secLoop : List (Nat × List Nat) :=
  [(0, [0xE8, 0, 0, 0, 0, 0x03, 5, 0, 0, 0, 0, 0, 0, 0, 0])]

/-- No mapped section at all: every fetch yields the unmodelled byte. -/
def secEmpty : List (Nat × List Nat) := []

theorem process_import_calls_deterministic_witness :
    process_import_calls secTerminal [0] 0x1000 = process_import_calls secTerminal [0] 0x1000 :=
  process_import_calls_deterministic secTerminal secTerminal [0] [0] 0x1000 0x1000 rfl rfl rfl

/-- Claim C5: every call site's bounded symbolic trace terminates in one of
exactly three ways — a terminal transfer within the fixed step budget, a
`TraceOverflowError` when the budget is exhausted, or an
`UnsupportedOpcodeError` naming the unmodelled opcode — and each of the three
outcomes is realized by some mapped-section contents. -/
theorem trace_terminates :
    (∀ (s : List (Nat × List Nat)) (cs : Nat),
      (∃ v, resolveCallSite s cs = .ok v) ∨
      resolveCallSite s cs = .error .traceOverflow ∨
      (∃ op, resolveCallSite s cs = .error (.unsupportedOpcode op))) ∧
    resolveCallSite secTerminal 0 = .ok 0x42 ∧
    resolveCallSite secLoop 0 = .error .traceOverflow ∧
    resolveCallSite secEmpty 0 = .error (.unsupportedOpcode 0xFF) := by
  refine ⟨fun s cs => ?_, by decide, by decide, by decide⟩
  match h : resolveCallSite s cs with
  | .ok v => exact Or.inl ⟨v, rfl⟩
  | .error .traceOverflow => exact Or.inr (Or.inl rfl)
  | .error (.unsupportedOpcode op) => exact Or.inr (Or.inr ⟨op, rfl⟩)

/-! ### Theorems: Output Image Builder (C6) -/

/-- Claim C6: `initialize_memory_pe` followed immediately by `dump_to_fs`,
with no section added, writes back exactly the byte snapshot it captured — no
section-table or header field needs to change for zero additional sections. -/
theorem image_roundtrip (base size : Nat) (mem : Nat → Option Nat) (bytes : List Nat)
    (h : readRange mem base size = some bytes) :
    initialize_memory_pe base size mem =
      .ok { m_image_base := base, m_buffer := bytes, added := [] } ∧
    dump_to_fs { m_image_base := base, m_buffer := bytes, added := [] } = bytes := by
  constructor
  · unfold initialize_memory_pe
    rw [h]
  · simp [dump_to_fs]

/-- Four readable bytes of remote memory. -/
def memEx : Nat → Option Nat := fun i => if i < 4 then some (i + 10) else none

theorem image_roundtrip_witness :
    initialize_memory_pe 0 4 memEx =
      .ok { m_image_base := 0, m_buffer := [10, 11, 12, 13], added := [] } ∧
    dump_to_fs { m_image_base := 0, m_buffer := [10, 11, 12, 13], added := [] } = [10, 11, 12, 13] :=
  image_roundtrip 0 4 memEx [10, 11, 12, 13] (by decide)

/-! ### Theorems: Import Call Scanner (C7) -/

theorem instrLen_pos (buf : List Nat) (off : Nat) : 1 ≤ instrLen buf off := by
  unfold instrLen
  split <;> omega

theorem scanAux_lb (base : Nat) (buf : List Nat) (ranges : List (Nat × Nat)) :
    ∀ fuel off x, x ∈ scanAux base buf ranges fuel off → base + off ≤ x := by
  intro fuel
  induction fuel with
  | zero => intro off x hx; simp [scanAux] at hx
  | succ n ih =>
    intro off x hx
    simp only [scanAux] at hx
    split at hx
    · split at hx
      · rcases List.mem_cons.mp hx with h | h
        · omega
        · have := ih (off + instrLen buf off) x h
          omega
      · have := ih (off + instrLen buf off) x hx
        omega
    · simp at hx

theorem scanAux_pairwise (base : Nat) (buf : List Nat) (ranges : List (Nat × Nat)) :
    ∀ fuel off, List.Pairwise (· < ·) (scanAux base buf ranges fuel off) := by
  intro fuel
  induction fuel with
  | zero => intro off; simp [scanAux]
  | succ n ih =>
    intro off
    simp only [scanAux]
    split
    · split
      · refine List.pairwise_cons.mpr ⟨fun x hx => ?_, ih _⟩
        have h1 := scanAux_lb base buf ranges n (off + instrLen buf off) x hx
        have h2 := instrLen_pos buf off
        omega
      · exact ih _
    · simp

theorem scanAux_nil (base : Nat) (buf : List Nat) (ranges : List (Nat × Nat))
    (h : ∀ o, o < buf.length → isResolvedCall base buf ranges o = false) :
    ∀ fuel off, scanAux base buf ranges fuel off = [] := by
  intro fuel
  induction fuel with
  | zero => intro off; rfl
  | succ n ih =>
    intro off
    simp only [scanAux]
    split
    · next hlt =>
      rw [h off hlt]
      simpa using ih (off + instrLen buf off)
    · rfl

/-- Claim C7: the call-site addresses the scanner returns are strictly
increasing (ascending order of occurrence in the buffer), and a buffer with
no complete call instruction whose raw target lands inside a mapped section
scans to the empty list. -/
theorem scan_calls_ordered (base : Nat) (buf : List Nat) (ranges : List (Nat × Nat)) :
    List.Pairwise (· < ·) (scan_import_calls base buf ranges) ∧
    ((∀ off, off < buf.length → isResolvedCall base buf ranges off = false) →
      scan_import_calls base buf ranges = []) := by
  constructor
  · exact scanAux_pairwise base buf ranges buf.length 0
  · intro h
    exact scanAux_nil base buf ranges h buf.length 0

example : scan_import_calls 0x1000 [0xE8, 0x05, 0, 0, 0, 0x90] [(0x100A, 1)] = [0x1000] := by
  decide
example : scan_import_calls 0x1000 [0x90, 0xE8, 0x05, 0, 0, 0] [(0, 2 ^ 63)] = [0x1001] := by
  decide
example : scan_import_calls 0x1000 [0xE8, 0x05, 0, 0, 0, 0x90] [(0x2000, 1)] = [] := by
  decide

/-! ### Theorems: driver stage order (C2) -/

theorem vmpReads_filter (l : List SecEnv) :
    ((vmpReads l).1).filter isStageEvent = [] := by
  induction l with
  | nil => rfl
  | cons s rest ih =>
    simp only [vmpReads]
    split
    · rfl
    · split
      · rfl
      · simpa [isStageEvent] using ih

theorem vmpReads_no_dump (l : List SecEnv) : Event.dumpToFs ∉ (vmpReads l).1 := by
  induction l with
  | nil => simp [vmpReads]
  | cons s rest ih =>
    simp only [vmpReads]
    split
    · simp
    · split
      · simp
      · simp [ih]

theorem vmpReads_ok (l : List SecEnv) : (vmpReads l).2 = vmpAllOk l := by
  induction l with
  | nil => rfl
  | cons s rest ih =>
    simp only [vmpReads, vmpAllOk]
    split
    · next h => simp [h]
    · next h =>
      split
      · next h2 => simp_all
      · next h2 => simp_all

theorem mainAfterArch_stage (e : Env) (b : Bool) :
    ∃ rest, ((mainAfterArch e b).trace.filter isStageEvent) ++ rest = stageOrder := by
  cases h1 : e.constructOk
  · exact ⟨stageOrder, by simp [mainAfterArch, h1, isStageEvent, stageOrder]⟩
  cases h2 : e.computeSectionsOk
  · exact ⟨stageOrder.drop 1, by simp [mainAfterArch, h1, h2, isStageEvent, stageOrder]⟩
  cases h3 : e.textSectionFound
  · exact ⟨stageOrder.drop 1, by simp [mainAfterArch, h1, h2, h3, isStageEvent, stageOrder]⟩
  cases h4 : e.textReadOk
  · exact ⟨stageOrder.drop 1, by simp [mainAfterArch, h1, h2, h3, h4, isStageEvent, stageOrder]⟩
  cases h5 : (vmpReads e.vmpSections).2
  · exact ⟨stageOrder.drop 2, by
      simp [mainAfterArch, h1, h2, h3, h4, h5, isStageEvent, stageOrder, vmpReads_filter]⟩
  cases h6 : e.mapSectionsOk
  · exact ⟨stageOrder.drop 3, by
      simp [mainAfterArch, h1, h2, h3, h4, h5, h6, isStageEvent, stageOrder, vmpReads_filter]⟩
  cases h7 : e.processOk
  · exact ⟨stageOrder.drop 4, by
      simp [mainAfterArch, h1, h2, h3, h4, h5, h6, h7, isStageEvent, stageOrder, vmpReads_filter]⟩
  cases h8 : e.enumModulesOk
  · exact ⟨stageOrder.drop 4, by
      simp [mainAfterArch, h1, h2, h3, h4, h5, h6, h7, h8, isStageEvent, stageOrder,
        vmpReads_filter]⟩
  cases h9 : e.initializeOk
  · exact ⟨stageOrder.drop 6, by
      simp [mainAfterArch, h1, h2, h3, h4, h5, h6, h7, h8, h9, isStageEvent, stageOrder,
        vmpReads_filter]⟩
  cases h10 : e.reconstructOk
  · exact ⟨stageOrder.drop 7, by
      simp [mainAfterArch, h1, h2, h3, h4, h5, h6, h7, h8, h9, h10, isStageEvent, stageOrder,
        vmpReads_filter]⟩
  cases h11 : e.dumpOk
  · exact ⟨[], by
      simp [mainAfterArch, h1, h2, h3, h4, h5, h6, h7, h8, h9, h10, h11, isStageEvent,
        stageOrder, vmpReads_filter]⟩
  · exact ⟨[], by
      simp [mainAfterArch, h1, h2, h3, h4, h5, h6, h7, h8, h9, h10, h11, isStageEvent,
        stageOrder, vmpReads_filter]⟩

/-- Claim C2, amended: in every run the pipeline-stage operations of `main`
occur as a prefix of the fixed order compute_sections → import-call scan →
map_sections → process_import_calls → IAT rebuild → builder snapshot → IAT
reconstruction → dump; a fully successful run (such as `envResolved`)
performs exactly that order.  The Import Call Scanner thus runs after the
Section Mapper's header resolution (`vmp::compute_sections`) but before the
Section Mapper's buffer registration (`vmp::map_sections`). -/
theorem main_stage_order :
    (∀ e : Env, ∃ rest, ((mainRun e).trace.filter isStageEvent) ++ rest = stageOrder) ∧
    (mainRun envResolved).trace.filter isStageEvent = stageOrder := by
  constructor
  · intro e
    unfold mainRun
    cases h1 : e.argParseOk
    · exact ⟨stageOrder, by simp [h1]⟩
    cases h2 : e.tomlOk
    · exact ⟨stageOrder, by simp [h1, h2]⟩
    cases h3 : e.processIdOk
    · exact ⟨stageOrder, by simp [h1, h2, h3]⟩
    cases h4 : e.attachOk
    · exact ⟨stageOrder, by simp [h1, h2, h3, h4, isStageEvent]⟩
    cases h5 : e.findModuleOk
    · exact ⟨stageOrder, by simp [h1, h2, h3, h4, h5, isStageEvent]⟩
    cases h6 : e.fileLoadOk
    · exact ⟨stageOrder, by simp [h1, h2, h3, h4, h5, h6, isStageEvent]⟩
    by_cases hm : e.fileMachine = machine_amd64
    · simpa [h1, h2, h3, h4, h5, h6, hm] using mainAfterArch_stage e true
    by_cases hm2 : e.fileMachine = machine_i386
    · simpa [h1, h2, h3, h4, h5, h6, hm, hm2] using mainAfterArch_stage e false
    · exact ⟨stageOrder, by simp [h1, h2, h3, h4, h5, h6, hm, hm2, isStageEvent]⟩
  · decide

/-- Claim C2, counterexample: in the fully successful run `envResolved` both
the scanner and `vmp::map_sections` execute, and the scanner's event strictly
precedes the `map_sections` event in the trace — the Section Mapper has not
finished (its buffer set is not yet registered) when the Import Call Scanner
runs, contradicting the claimed Mapper-then-Scanner order. -/
theorem main_stage_order_counterexample :
    Event.scanImportCalls ∈ (mainRun envResolved).trace ∧
    Event.mapSections ∈ (mainRun envResolved).trace ∧
    (mainRun envResolved).trace.indexOf Event.scanImportCalls <
      (mainRun envResolved).trace.indexOf Event.mapSections := by
  refine ⟨by decide, by decide, by decide⟩

/-! ### Theorems: dump guard and exit status (C9) -/

theorem mainAfterArch_dump (e : Env) (b : Bool) :
    (Event.dumpToFs ∈ (mainAfterArch e b).trace ↔ afterArchOk e = true) ∧
    ((mainAfterArch e b).exit = EXIT_SUCCESS ↔ (afterArchOk e = true ∧ e.dumpOk = true)) := by
  cases h1 : e.constructOk
  · simp [mainAfterArch, afterArchOk, h1, EXIT_SUCCESS, EXIT_FAILURE]
  cases h2 : e.computeSectionsOk
  · simp [mainAfterArch, afterArchOk, h1, h2, EXIT_SUCCESS, EXIT_FAILURE]
  cases h3 : e.textSectionFound
  · simp [mainAfterArch, afterArchOk, h1, h2, h3, EXIT_SUCCESS, EXIT_FAILURE]
  cases h4 : e.textReadOk
  · simp [mainAfterArch, afterArchOk, h1, h2, h3, h4, EXIT_SUCCESS, EXIT_FAILURE]
  cases h5 : (vmpReads e.vmpSections).2
  · simp [mainAfterArch, afterArchOk, h1, h2, h3, h4, h5, ← vmpReads_ok, EXIT_SUCCESS,
      EXIT_FAILURE, vmpReads_no_dump]
  cases h6 : e.mapSectionsOk
  · simp [mainAfterArch, afterArchOk, h1, h2, h3, h4, h5, h6, ← vmpReads_ok, EXIT_SUCCESS,
      EXIT_FAILURE, vmpReads_no_dump]
  cases h7 : e.processOk
  · simp [mainAfterArch, afterArchOk, h1, h2, h3, h4, h5, h6, h7, ← vmpReads_ok, EXIT_SUCCESS,
      EXIT_FAILURE, vmpReads_no_dump]
  cases h8 : e.enumModulesOk
  · simp [mainAfterArch, afterArchOk, h1, h2, h3, h4, h5, h6, h7, h8, ← vmpReads_ok,
      EXIT_SUCCESS, EXIT_FAILURE, vmpReads_no_dump]
  cases h9 : e.initializeOk
  · simp [mainAfterArch, afterArchOk, h1, h2, h3, h4, h5, h6, h7, h8, h9, ← vmpReads_ok,
      EXIT_SUCCESS, EXIT_FAILURE, vmpReads_no_dump]
  cases h10 : e.reconstructOk
  · simp [mainAfterArch, afterArchOk, h1, h2, h3, h4, h5, h6, h7, h8, h9, h10, ← vmpReads_ok,
      EXIT_SUCCESS, EXIT_FAILURE, vmpReads_no_dump]
  cases h11 : e.dumpOk
  · simp [mainAfterArch, afterArchOk, h1, h2, h3, h4, h5, h6, h7, h8, h9, h10, h11,
      ← vmpReads_ok, EXIT_SUCCESS, EXIT_FAILURE, vmpReads_no_dump]
  · simp [mainAfterArch, afterArchOk, h1, h2, h3, h4, h5, h6, h7, h8, h9, h10, h11,
      ← vmpReads_ok, EXIT_SUCCESS, EXIT_FAILURE, vmpReads_no_dump]

/-- Claim C9: `main` reaches `dump_to_fs` exactly when every earlier
operation — argument and config parsing, attach, module and file lookup, a
valid machine id, context and section setup, the remote section reads, the
resolver, module enumeration, the builder snapshot and the IAT
reconstruction — succeeded; and the run exits with `EXIT_SUCCESS` exactly
when additionally the dump itself succeeded.  A failed remote read or a
throwing pipeline stage therefore ends the run with `EXIT_FAILURE` and no
`dump_to_fs` call. -/
theorem main_dump_guard (e : Env) :
    (Event.dumpToFs ∈ (mainRun e).trace ↔ priorOk e = true) ∧
    ((mainRun e).exit = EXIT_SUCCESS ↔ (priorOk e = true ∧ e.dumpOk = true)) := by
  unfold mainRun
  cases h1 : e.argParseOk
  · simp [priorOk, h1, EXIT_SUCCESS, EXIT_FAILURE]
  cases h2 : e.tomlOk
  · simp [priorOk, h1, h2, EXIT_SUCCESS, EXIT_FAILURE]
  cases h3 : e.processIdOk
  · simp [priorOk, h1, h2, h3, EXIT_SUCCESS, EXIT_FAILURE]
  cases h4 : e.attachOk
  · simp [priorOk, h1, h2, h3, h4, EXIT_SUCCESS, EXIT_FAILURE]
  cases h5 : e.findModuleOk
  · simp [priorOk, h1, h2, h3, h4, h5, EXIT_SUCCESS, EXIT_FAILURE]
  cases h6 : e.fileLoadOk
  · simp [priorOk, h1, h2, h3, h4, h5, h6, EXIT_SUCCESS, EXIT_FAILURE]
  by_cases hm : e.fileMachine = machine_amd64
  · simpa [priorOk, h1, h2, h3, h4, h5, h6, hm] using mainAfterArch_dump e true
  by_cases hm2 : e.fileMachine = machine_i386
  · simpa [priorOk, h1, h2, h3, h4, h5, h6, hm, hm2] using mainAfterArch_dump e false
  · simp [priorOk, h1, h2, h3, h4, h5, h6, hm, hm2, EXIT_SUCCESS, EXIT_FAILURE]

/-! ### Theorems: machine-id switch (C10) -/

theorem mainAfterArch_construct_mem (e : Env) (b : Bool) :
    Event.constructContext b ∈ (mainAfterArch e b).trace := by
  cases h1 : e.constructOk
  · simp [mainAfterArch, h1]
  cases h2 : e.computeSectionsOk
  · simp [mainAfterArch, h1, h2]
  cases h3 : e.textSectionFound
  · simp [mainAfterArch, h1, h2, h3]
  cases h4 : e.textReadOk
  · simp [mainAfterArch, h1, h2, h3, h4]
  cases h5 : (vmpReads e.vmpSections).2
  · simp [mainAfterArch, h1, h2, h3, h4, h5]
  cases h6 : e.mapSectionsOk
  · simp [mainAfterArch, h1, h2, h3, h4, h5, h6]
  cases h7 : e.processOk
  · simp [mainAfterArch, h1, h2, h3, h4, h5, h6, h7]
  cases h8 : e.enumModulesOk
  · simp [mainAfterArch, h1, h2, h3, h4, h5, h6, h7, h8]
  cases h9 : e.initializeOk
  · simp [mainAfterArch, h1, h2, h3, h4, h5, h6, h7, h8, h9]
  cases h10 : e.reconstructOk
  · simp [mainAfterArch, h1, h2, h3, h4, h5, h6, h7, h8, h9, h10]
  cases h11 : e.dumpOk
  · simp [mainAfterArch, h1, h2, h3, h4, h5, h6, h7, h8, h9, h10, h11]
  · simp [mainAfterArch, h1, h2, h3, h4, h5, h6, h7, h8, h9, h10, h11]

/-- Claim C10: once the on-disk file at the module's path is loaded, the
machine field of that file decides the architecture — `amd64` constructs the
pipeline 64-bit, `i386` constructs it 32-bit, and any other machine id ends
the run with `EXIT_FAILURE` with no pipeline operation performed (the trace
stops at the file load).  The live process image plays no part: changing the
remote image's machine id (`processMachine`) changes nothing about the run. -/
theorem main_machine_switch (e : Env)
    (ha : e.argParseOk = true) (ht : e.tomlOk = true) (hp : e.processIdOk = true)
    (hat : e.attachOk = true) (hf : e.findModuleOk = true) (hl : e.fileLoadOk = true) :
    (e.fileMachine = machine_amd64 → Event.constructContext true ∈ (mainRun e).trace) ∧
    (e.fileMachine = machine_i386 → Event.constructContext false ∈ (mainRun e).trace) ∧
    (e.fileMachine ≠ machine_amd64 → e.fileMachine ≠ machine_i386 →
      (mainRun e).exit = EXIT_FAILURE ∧ (mainRun e).trace = [Event.attach, Event.fileLoad]) ∧
    (∀ m, mainRun { e with processMachine := m } = mainRun e) := by
  refine ⟨fun hm => ?_, fun hm => ?_, fun hm hm2 => ?_, fun m => rfl⟩
  · simpa [mainRun, ha, ht, hp, hat, hf, hl, hm] using mainAfterArch_construct_mem e true
  · have hne : e.fileMachine ≠ machine_amd64 := by
      rw [hm]; decide
    simpa [mainRun, ha, ht, hp, hat, hf, hl, hne, hm] using mainAfterArch_construct_mem e false
  · simp [mainRun, ha, ht, hp, hat, hf, hl, hm, hm2, EXIT_FAILURE]

theorem main_machine_switch_witness :
    (mainRun envBadMachine).exit = EXIT_FAILURE ∧
    (mainRun envBadMachine).trace = [Event.attach, Event.fileLoad] :=
  (main_machine_switch envBadMachine rfl rfl rfl rfl rfl rfl).2.2.1 (by decide) (by decide)
